import Mathlib

/-!
Verification development for the powersearch repository.

The repository has two halves:

* a desktop search frontend (Electron + React): the main-process IPC
  handlers in `src/frontend/powersearch/src/main.ts`, the preload bridge
  exposing `electronAPI`, and two variants of the `SearchApp` React
  component (the renderer);
* a FastAPI indexing server whose Python sources are not present in the
  repository snapshot (only its README and cursor-rules documents are);
  the indexing pipeline and query service are therefore modelled from the
  specification where a claim depends on them.

All frontend definitions below are direct shallow embeddings of the
TypeScript source; definitions modelled from the specification say so in
their doc comments.
-/

namespace PowerSearch

/- ===================================================================
   Frontend: Electron main process, `src/frontend/powersearch/src/main.ts`
   =================================================================== -/

/-- The value shape resolved by the `search-query` IPC handler and consumed
by the renderer: `{ success: boolean; data?: any; error?: string }`.
The renderer's comment says "Assuming result.data is a file path", so
`data` is modelled as an optional string. -/
structure SearchResponse where
  success : Bool
  data : Option String
  error : Option String
  deriving DecidableEq, Repr

/-- The request URL built by the `search-query` handler (main.ts line 108):
the template literal interpolates only `query`; the handler's `fileType`
parameter is only logged and never used. -/
def searchQueryUrl (query fileType : String) : String :=
  "http://localhost:4000/files?search=" ++ query

/-- The `search-query` IPC handler (main.ts lines 102-121). The whole body
is wrapped in try/catch: a successful fetch resolves to
`{success: true, data}`, a failed fetch is caught and resolves to
`{success: false, error}`. The outer `Except` is the promise: `.ok` means
the promise resolves, `.error` would mean it rejects. `fetchJson` is the
outcome of `fetch` + `response.json()` for a given URL. -/
def searchQueryHandler (query fileType : String)
    (fetchJson : String → Except String String) : Except String SearchResponse :=
  match fetchJson (searchQueryUrl query fileType) with
  | Except.ok d => Except.ok ⟨true, some d, none⟩
  | Except.error e => Except.ok ⟨false, none, some e⟩

/-- The preload bridge (`contextBridge.exposeInMainWorld('electronAPI', ...)`):
`searchQuery` forwards its two arguments to the `search-query` handler. -/
def electronAPI_searchQuery (query fileType : String)
    (fetchJson : String → Except String String) : Except String SearchResponse :=
  searchQueryHandler query fileType fetchJson

/-- The parameter list of the exposed `electronAPI.searchQuery` entry point:
`(query: string, fileType: string)`. -/
def electronAPI_searchQueryParams : List String := ["query", "fileType"]

/- ===================================================================
   Renderer: SearchApp variant 1 (src/unnamed/part_000, first component)
   =================================================================== -/

/-- `SearchResultItem` of SearchApp variant 1 (has an absolute `path`). -/
structure SearchResultItem where
  id : String
  path : String
  title : String
  description : String
  type : String
  deriving DecidableEq, Repr

/-- JavaScript `String.prototype.split` with a single-character separator
(modelled structurally over the character list so that it evaluates):
accumulates the current segment and starts a new one at each separator. -/
def jsSplitAux (sep : Char) : List Char → List Char → List (List Char)
  | [], acc => [acc.reverse]
  | c :: rest, acc =>
    if c = sep then acc.reverse :: jsSplitAux sep rest []
    else jsSplitAux sep rest (c :: acc)

/-- JavaScript `s.split(sep)` for a one-character separator. -/
def jsSplit (sep : Char) (s : String) : List String :=
  (jsSplitAux sep s.data []).map String.mk

/-- JavaScript `String.prototype.toLowerCase` (ASCII case folding, which is
all the extension table needs). -/
def jsToLower (s : String) : String :=
  String.mk (s.data.map Char.toLower)

/-- `getFileTypeFromPath`: lowercase the path, take the substring after the
last `.` (`split('.').pop() || ''`), and classify it. -/
def getFileTypeFromPath (filePath : String) : String :=
  let extension := ((jsSplit '.' (jsToLower filePath)).getLast?).getD ""
  if ["jpg", "jpeg", "png", "gif", "bmp", "webp"].contains extension then "image"
  else if extension = "pdf" then "pdf"
  else if ["txt", "md", "rtf", "doc", "docx"].contains extension then "text"
  else "unknown"

/-- `getFileName`: `filePath.split('/').pop() || filePath` — the last path
segment, falling back to the whole path when that segment is empty. -/
def getFileName (filePath : String) : String :=
  let lastSeg := ((jsSplit '/' filePath).getLast?).getD ""
  if lastSeg = "" then filePath else lastSeg

/-- The React state of SearchApp variant 1 touched by `handleKeyPress`:
`searchQuery`, `searchResults`, `isLoading`, `showResults`. -/
structure AppState where
  searchQuery : String
  searchResults : List SearchResultItem
  isLoading : Bool
  showResults : Bool
  deriving DecidableEq, Repr

/-- JavaScript truthiness of `result.data` under the string-data model:
`undefined` and the empty string are falsy. -/
def dataTruthy : Option String → Bool
  | none => false
  | some s => !(s == "")

/-- JavaScript `String.prototype.trim`: remove whitespace from both ends of
the string (modelled structurally so that it evaluates). -/
def jsTrim (s : String) : String :=
  String.mk (((s.data.dropWhile Char.isWhitespace).reverse.dropWhile
    Char.isWhitespace).reverse)

/-- `handleKeyPress` of SearchApp variant 1 (lines 127-170). Returns the
state after the handler finishes together with a flag recording whether
`window.electronAPI.searchQuery` was invoked. The net state effect is
modelled: `setIsLoading(true)` followed by the `finally` block's
`setIsLoading(false)` leaves `isLoading` false, and `setShowResults(false)`
is followed by `setShowResults(true)` on every branch of the try/catch.
`searchBackend` maps (trimmed query, fileType id) to the resolved
response. -/
def handleKeyPress (key : String) (selectedFileTypeId : String)
    (searchBackend : String → String → SearchResponse) (st : AppState) :
    AppState × Bool :=
  if key = "Enter" then
    if jsTrim st.searchQuery = "" then (st, false)
    else
      let result := searchBackend (jsTrim st.searchQuery) selectedFileTypeId
      if result.success && dataTruthy result.data then
        let filePath := (result.data).getD ""
        let item : SearchResultItem :=
          { id := "1", path := filePath, title := getFileName filePath,
            description := filePath, type := getFileTypeFromPath filePath }
        ({ st with searchResults := [item], showResults := true, isLoading := false }, true)
      else
        ({ st with searchResults := [], showResults := true, isLoading := false }, true)
  else (st, false)

/- ===================================================================
   Renderer: SearchApp variant 2 (src/unnamed/part_000, second component)
   =================================================================== -/

/-- `SearchResultItem` of SearchApp variant 2 (no `path` field). -/
structure SearchResultItem2 where
  id : String
  title : String
  description : String
  type : String
  deriving DecidableEq, Repr

/-- The hard-coded `mockSearchResults` list of SearchApp variant 2. -/
def mockSearchResults : List SearchResultItem2 :=
  [ { id := "1", title := "Document.pdf", description := "Financial report from Q4 2023", type := "pdf" },
    { id := "2", title := "Report.pdf", description := "Annual sales report", type := "pdf" },
    { id := "3", title := "Notes.txt", description := "Meeting notes from last week", type := "text" },
    { id := "4", title := "README.txt", description := "Project documentation", type := "text" },
    { id := "5", title := "Invoice.pdf", description := "Client invoice #1234", type := "pdf" } ]

/-- The React state of SearchApp variant 2 touched by `handleKeyPress`. -/
structure AppState2 where
  searchQuery : String
  searchResults : List SearchResultItem2
  isLoading : Bool
  showResults : Bool
  deriving DecidableEq, Repr

/-- `handleKeyPress` of SearchApp variant 2 (lines 421-465): on a successful
response the displayed list is the mock list, filtered by the selected file
type when it is not `all`; the backend `data` and the query text play no
part in what is displayed. -/
def handleKeyPress2 (key : String) (selectedFileTypeId : String)
    (searchBackend : String → String → SearchResponse) (st : AppState2) :
    AppState2 × Bool :=
  if key = "Enter" then
    if jsTrim st.searchQuery = "" then (st, false)
    else
      let result := searchBackend (jsTrim st.searchQuery) selectedFileTypeId
      if result.success then
        let filteredResults :=
          if selectedFileTypeId ≠ "all" then
            mockSearchResults.filter (fun item => item.type == selectedFileTypeId)
          else mockSearchResults
        ({ st with searchResults := filteredResults, showResults := true, isLoading := false }, true)
      else
        ({ st with searchResults := [], showResults := true, isLoading := false }, true)
  else (st, false)

/- ===================================================================
   Query Service (spec-modelled)
   =================================================================== -/

/-- Modelled from the spec: "ranked at least as high" — entry `a` scores at
least as high as entry `b` (the descending ranking order of the vector
store's `query`). The Python query service (`routes.py`/`database.py`) is
not present under `src/`. A stored entry is represented as its file id
paired with its similarity score to the query (the embedding step is
abstracted into the given scores). -/
def scoreGE (a b : String × ℚ) : Prop := b.2 ≤ a.2

instance : DecidableRel scoreGE := fun a b => inferInstanceAs (Decidable (b.2 ≤ a.2))

instance : IsTotal (String × ℚ) scoreGE := ⟨fun a b => le_total b.2 a.2⟩

instance : IsTrans (String × ℚ) scoreGE := ⟨fun _ _ _ hab hbc => le_trans hbc hab⟩

/-- Modelled from the spec: order the stored entries by descending
similarity score. -/
def sortByScoreDesc (store : List (String × ℚ)) : List (String × ℚ) :=
  List.insertionSort scoreGE store

/-- Modelled from the spec: the Vector Store Client's
`query(vector, limit) -> ordered list of {id, metadata, score}` ordered by
descending similarity, returning the top-`limit` matches. -/
def vectorQuery (store : List (String × ℚ)) (limit : Nat) : List (String × ℚ) :=
  (sortByScoreDesc store).take limit

/-- Modelled from the spec: the Query Service (§4.6) — query the store for
the top-`limit` matches, then filter to only those with
`score >= threshold`. The Python implementation is not under `src/`. -/
def search (store : List (String × ℚ)) (threshold : ℚ) (limit : Nat) :
    List (String × ℚ) :=
  (vectorQuery store limit).filter (fun r => decide (threshold ≤ r.2))

/- ===================================================================
   Indexing Pipeline (spec-modelled)
   =================================================================== -/

/-- Modelled from the spec: the `IndexEntry` vector payload stored in the
vector store for one file (the pipeline state below is the projection of
the store onto a single `file_id`, so the id key is implicit). The Python
pipeline (`services.py`/`routes.py`) is not present under `src/`. -/
structure IndexEntry where
  vector : List Int
  deriving DecidableEq, Repr

/-- Modelled from the spec: the per-file portion of durable state the
pipeline touches — the FileRecord's `content_hash` (here the fingerprint is
the content itself, an injective fingerprint) and the file's entry in the
vector store. `content_hash` is `none` until a run has completed. -/
structure FileIndexState where
  content_hash : Option String
  entry : Option IndexEntry
  deriving DecidableEq, Repr

/-- Modelled from the spec: a Model Provider call made during a run
(`summarize`, `summarizeFinal`, `embed`). -/
inductive ProviderCall where
  | summarize (text : String)
  | summarizeFinal (parts : List String)
  | embed (text : String)
  deriving DecidableEq, Repr

/-- Modelled from the spec: the outcomes of the external collaborators for
one run — extraction, summarization, final summarization, embedding, and
whether the vector store upsert succeeds. -/
structure PipelineEnv where
  extract : String → Except String String
  summarize : String → Except String String
  summarizeFinal : List String → Except String String
  embed : String → Except String (List Int)
  upsertOk : Bool

/-- Modelled from the spec: how one pipeline run ends — it either runs the
full pipeline to completion (including the content-hash skip, which
completes trivially) or aborts fail-fast at the failing stage. -/
inductive RunOutcome where
  | completed
  | aborted
  deriving DecidableEq, Repr

/-- Modelled from the spec: the result of one pipeline run — the per-file
state afterwards, the trace of Model Provider calls made, and the
outcome. -/
structure RunResult where
  state : FileIndexState
  calls : List ProviderCall
  outcome : RunOutcome
  deriving Repr

/-- Modelled from the spec: the large-document boundary — files larger than
50,000 characters are chunked (indexing-server README). -/
def chunkLimit : Nat := 50000

/-- Modelled from the spec: split large extracted text into ordered,
bounded-size chunks (boundary placement is irrelevant to the claims). -/
def splitChunks (text : String) : List String :=
  (List.toChunks chunkLimit text.data).map (fun l => String.mk l)

/-- Modelled from the spec: step 2 of §4.3 — if extracted text exceeds the
large-document boundary it is split into ordered chunks, otherwise the
whole document is one chunk. -/
def chunkDocument (text : String) : List String :=
  if text.length ≤ chunkLimit then [text] else splitChunks text

/-- Modelled from the spec: summarize each chunk in source order,
fail-fast; returns the chunk summaries (or `none` on the first failure)
together with the `summarize` calls actually made. -/
def summarizeChunks (env : PipelineEnv) :
    List String → Option (List String) × List ProviderCall
  | [] => (some [], [])
  | c :: rest =>
    match env.summarize c with
    | Except.error _ => (none, [ProviderCall.summarize c])
    | Except.ok s =>
      match summarizeChunks env rest with
      | (none, calls) => (none, ProviderCall.summarize c :: calls)
      | (some ss, calls) => (some (s :: ss), ProviderCall.summarize c :: calls)

/-- Modelled from the spec: if more than one chunk, call `summarizeFinal`
on the list of chunk summaries; a single chunk's summary is the document
summary directly. -/
def finalSummary (env : PipelineEnv) (summaries : List String) :
    Option String × List ProviderCall :=
  match summaries with
  | [s] => (some s, [])
  | ss =>
    match env.summarizeFinal ss with
    | Except.error _ => (none, [ProviderCall.summarizeFinal ss])
    | Except.ok s => (some s, [ProviderCall.summarizeFinal ss])

/-- Modelled from the spec: one pipeline run for a `created`/`modified`
event on one file, §4.3 —

1. read content; skip rule: if its fingerprint equals the stored
   `content_hash` the run short-circuits with no model calls;
2. extraction (abort on failure, prior entry and hash untouched);
3. chunking at the large-document boundary;
4. per-chunk summarization then `summarizeFinal` (fail-fast);
5. embedding (failure aborts identically);
6. upsert as the last step; `content_hash` is updated only after a
   successful upsert. Every abort branch returns the prior state
   unchanged. -/
def runPipeline (env : PipelineEnv) (content : String) (st : FileIndexState) :
    RunResult :=
  if st.content_hash = some content then
    ⟨st, [], RunOutcome.completed⟩
  else
    match env.extract content with
    | Except.error _ => ⟨st, [], RunOutcome.aborted⟩
    | Except.ok text =>
      match summarizeChunks env (chunkDocument text) with
      | (none, calls) => ⟨st, calls, RunOutcome.aborted⟩
      | (some summaries, calls) =>
        match finalSummary env summaries with
        | (none, fcalls) => ⟨st, calls ++ fcalls, RunOutcome.aborted⟩
        | (some summary, fcalls) =>
          match env.embed summary with
          | Except.error _ =>
              ⟨st, calls ++ fcalls ++ [ProviderCall.embed summary], RunOutcome.aborted⟩
          | Except.ok vec =>
            if env.upsertOk then
              ⟨⟨some content, some ⟨vec⟩⟩,
                calls ++ fcalls ++ [ProviderCall.embed summary], RunOutcome.completed⟩
            else
              ⟨st, calls ++ fcalls ++ [ProviderCall.embed summary], RunOutcome.aborted⟩

/-- Modelled from the spec: the fresh per-file state — no entry, no
recorded content hash. -/
def initState : FileIndexState := ⟨none, none⟩

/-- Modelled from the spec: run a sequence of pipeline runs (each an
environment and the content read for that run) for one file. -/
def runSeq : List (PipelineEnv × String) → FileIndexState → FileIndexState
  | [], st => st
  | (env, c) :: rest, st => runSeq rest (runPipeline env c st).state

/-- Modelled from the spec: the outcomes of a sequence of pipeline runs, in
order. -/
def outcomesSeq : List (PipelineEnv × String) → FileIndexState → List RunOutcome
  | [], _ => []
  | (env, c) :: rest, st =>
    (runPipeline env c st).outcome :: outcomesSeq rest (runPipeline env c st).state

/- ===================================================================
   Per-path run serialization (spec-modelled)
   =================================================================== -/

/-- Modelled from the spec: the scheduler state — the multiset of
normalized paths that currently have a running pipeline instance. The
per-path lock table itself (§5, §9) is not present under `src/`. -/
structure SchedState where
  running : List String
  deriving DecidableEq, Repr

/-- Modelled from the spec: no run is in flight initially. -/
def SchedState.init : SchedState := ⟨[]⟩

/-- Modelled from the spec: scheduler transitions — a run for path `p` may
start only by acquiring the exclusive per-path run token (no run for `p` is
in flight), and a run release happens when it completes or aborts. -/
inductive SchedStep : SchedState → SchedState → Prop
  | start (s : SchedState) (p : String) (h : p ∉ s.running) :
      SchedStep s ⟨p :: s.running⟩
  | finish (s : SchedState) (p : String) :
      SchedStep s ⟨s.running.erase p⟩

/-- Modelled from the spec: the states the scheduler can reach from the
initial state. -/
inductive SchedReachable : SchedState → Prop
  | init : SchedReachable SchedState.init
  | step {s s' : SchedState} :
      SchedReachable s → SchedStep s s' → SchedReachable s'

/- ===================================================================
   State predicates and concrete instances used by examples and witnesses
   =================================================================== -/

/-- The coupling the pipeline maintains between the two durable artefacts:
the file has an IndexEntry exactly when its FileRecord carries a recorded
`content_hash` (both are written only by a successful upsert). -/
def StateInv (st : FileIndexState) : Prop :=
  st.entry.isSome = st.content_hash.isSome

/-- The spec's threshold-filtering example: a store whose three entries
score 0.9, 0.5 and 0.3 against the query. -/
def demoStore : List (String × ℚ) :=
  [("/docs/fileA.txt", mkRat 9 10), ("/docs/fileB.txt", mkRat 5 10),
   ("/docs/fileC.txt", mkRat 3 10)]

/-- The configured minimum similarity of the example: 0.4 (the default
`QUERY_THRESHOLD`). -/
def demoThreshold : ℚ := mkRat 4 10

/-- A fetch of the `/files` endpoint that succeeds and returns the
best-matching file path (the renderer assumes `data` is one file path). -/
def demoFetch : String → Except String String :=
  fun _ => Except.ok "/docs/fileA.txt"

/-- The renderer-side view of the backend reached through the preload
bridge and the `search-query` handler over `demoFetch`. -/
def demoBackend (query fileType : String) : SearchResponse :=
  match electronAPI_searchQuery query fileType demoFetch with
  | Except.ok r => r
  | Except.error e => ⟨false, none, some e⟩

/-- A renderer state about to search for a nonempty query. -/
def demoState : AppState := ⟨"fileA", [], false, false⟩

/-- A pipeline environment whose external calls all succeed. -/
def envOk : PipelineEnv :=
  ⟨fun c => Except.ok c, fun s => Except.ok s,
   fun ss => Except.ok (String.join ss), fun _ => Except.ok [1, 2, 3], true⟩

/-- A pipeline environment whose embedding call always fails. -/
def envFailEmbed : PipelineEnv :=
  ⟨fun c => Except.ok c, fun s => Except.ok s,
   fun ss => Except.ok (String.join ss),
   fun _ => Except.error "embedding backend unavailable", true⟩

/-- A two-run event sequence: a successful indexing run followed by a run
whose embed step fails. -/
def demoEvents : List (PipelineEnv × String) :=
  [(envOk, "first revision"), (envFailEmbed, "second revision")]

/- ===================================================================
   Helper lemmas: the spec-modelled Query Service
   =================================================================== -/

theorem mem_sortByScoreDesc {r : String × ℚ} {store : List (String × ℚ)}
    (h : r ∈ sortByScoreDesc store) : r ∈ store :=
  (List.perm_insertionSort scoreGE store).subset h

theorem mem_vectorQuery {r : String × ℚ} {store : List (String × ℚ)}
    {limit : Nat} (h : r ∈ vectorQuery store limit) : r ∈ store :=
  mem_sortByScoreDesc (List.take_subset _ _ h)

theorem search_subset {store : List (String × ℚ)} {threshold : ℚ}
    {limit : Nat} : ∀ r ∈ search store threshold limit, r ∈ store :=
  fun _ hr => mem_vectorQuery (List.mem_of_mem_filter hr)

theorem search_length_le (store : List (String × ℚ)) (threshold : ℚ)
    (limit : Nat) : (search store threshold limit).length ≤ limit :=
  le_trans (List.length_filter_le _ _)
    (by rw [vectorQuery, List.length_take]; exact min_le_left _ _)

theorem search_score_ge (store : List (String × ℚ)) (threshold : ℚ)
    (limit : Nat) : ∀ r ∈ search store threshold limit, threshold ≤ r.2 := by
  intro r hr
  unfold search at hr
  simpa using (List.mem_filter.mp hr).2

/- ===================================================================
   Helper lemmas: the renderer's keypress handlers
   =================================================================== -/

theorem search_sorted (store : List (String × ℚ)) (threshold : ℚ)
    (limit : Nat) : List.Sorted scoreGE (search store threshold limit) :=
  List.Pairwise.sublist
    ((List.filter_sublist _).trans (List.take_sublist _ _))
    (List.sorted_insertionSort scoreGE store)

theorem search_eq_nil_of_below (store : List (String × ℚ)) (threshold : ℚ)
    (limit : Nat) (h : ∀ r ∈ store, r.2 < threshold) :
    search store threshold limit = [] := by
  apply List.filter_eq_nil_iff.mpr
  intro a ha
  simp only [decide_eq_true_eq]
  exact not_le.mpr (h a (mem_vectorQuery ha))

theorem handleKeyPress_length_le_one (selectedId : String)
    (backend : String → String → SearchResponse) (st : AppState)
    (h : ¬ jsTrim st.searchQuery = "") :
    ((handleKeyPress "Enter" selectedId backend st).1.searchResults).length ≤ 1 := by
  unfold handleKeyPress
  rw [if_pos rfl, if_neg h]
  dsimp only
  split
  · simp
  · simp

theorem handleKeyPress_failure (selectedId : String)
    (backend : String → String → SearchResponse) (st : AppState)
    (h : ¬ jsTrim st.searchQuery = "")
    (hs : (backend (jsTrim st.searchQuery) selectedId).success = false) :
    handleKeyPress "Enter" selectedId backend st =
      ({ st with searchResults := [], showResults := true, isLoading := false },
        true) := by
  unfold handleKeyPress
  rw [if_pos rfl, if_neg h]
  dsimp only
  rw [hs]
  simp

/- ===================================================================
   Helper lemmas: the spec-modelled pipeline
   =================================================================== -/

theorem runPipeline_skip (env : PipelineEnv) (c : String)
    (st : FileIndexState) (h : st.content_hash = some c) :
    runPipeline env c st = ⟨st, [], RunOutcome.completed⟩ := by
  unfold runPipeline
  rw [if_pos h]

theorem runPipeline_spec (env : PipelineEnv) (c : String) (st : FileIndexState) :
    ((runPipeline env c st).state = st ∧
      ((runPipeline env c st).outcome = RunOutcome.completed →
        st.content_hash = some c)) ∨
    ((runPipeline env c st).state.content_hash = some c ∧
      (runPipeline env c st).state.entry.isSome = true ∧
      (runPipeline env c st).outcome = RunOutcome.completed) := by
  unfold runPipeline
  split
  · exact Or.inl ⟨rfl, fun _ => by assumption⟩
  · split
    · exact Or.inl ⟨rfl, fun h => RunOutcome.noConfusion h⟩
    · split
      · exact Or.inl ⟨rfl, fun h => RunOutcome.noConfusion h⟩
      · split
        · exact Or.inl ⟨rfl, fun h => RunOutcome.noConfusion h⟩
        · split
          · exact Or.inl ⟨rfl, fun h => RunOutcome.noConfusion h⟩
          · split
            · exact Or.inr ⟨rfl, rfl, rfl⟩
            · exact Or.inl ⟨rfl, fun h => RunOutcome.noConfusion h⟩

theorem runPipeline_aborted_state (env : PipelineEnv) (c : String)
    (st : FileIndexState)
    (h : (runPipeline env c st).outcome = RunOutcome.aborted) :
    (runPipeline env c st).state = st := by
  rcases runPipeline_spec env c st with h1 | h2
  · exact h1.1
  · rw [h2.2.2] at h
    exact RunOutcome.noConfusion h

theorem runPipeline_inv (env : PipelineEnv) (c : String) (st : FileIndexState)
    (h : StateInv st) : StateInv (runPipeline env c st).state := by
  rcases runPipeline_spec env c st with h1 | h2
  · rw [h1.1]; exact h
  · unfold StateInv
    rw [h2.1, h2.2.1]
    rfl

theorem runPipeline_completed_entry (env : PipelineEnv) (c : String)
    (st : FileIndexState) (h : StateInv st)
    (hc : (runPipeline env c st).outcome = RunOutcome.completed) :
    (runPipeline env c st).state.entry.isSome = true := by
  rcases runPipeline_spec env c st with h1 | h2
  · rw [h1.1]
    unfold StateInv at h
    rw [h, h1.2 hc]
    rfl
  · exact h2.2.1

theorem runPipeline_embed_fail_state (env : PipelineEnv) (c e : String)
    (st : FileIndexState) (hembed : ∀ s, env.embed s = Except.error e) :
    (runPipeline env c st).state = st := by
  unfold runPipeline
  split
  · rfl
  · split
    · rfl
    · split
      · rfl
      · split
        · rfl
        · split
          · rfl
          · next heq =>
              rw [hembed] at heq
              exact Except.noConfusion heq

theorem runSeq_entry_iff_aux :
    ∀ (evs : List (PipelineEnv × String)) (st : FileIndexState),
      StateInv st →
      (((runSeq evs st).entry.isSome = true) ↔
        (RunOutcome.completed ∈ outcomesSeq evs st ∨ st.entry.isSome = true)) := by
  intro evs
  induction evs with
  | nil => intro st _; simp [runSeq, outcomesSeq]
  | cons ev rest ih =>
    intro st hinv
    obtain ⟨env, c⟩ := ev
    have hinv' := runPipeline_inv env c st hinv
    cases hout : (runPipeline env c st).outcome with
    | completed =>
      have hent := runPipeline_completed_entry env c st hinv hout
      simp only [runSeq, outcomesSeq, List.mem_cons, hout]
      rw [ih _ hinv']
      simp [hent]
    | aborted =>
      have hst := runPipeline_aborted_state env c st hout
      simp only [runSeq, outcomesSeq, List.mem_cons, hout]
      rw [ih _ hinv', hst]
      simp

/- ===================================================================
   Helper lemmas: the spec-modelled per-path scheduler
   =================================================================== -/

theorem schedReachable_nodup {s : SchedState} (h : SchedReachable s) :
    s.running.Nodup := by
  induction h with
  | init => simp [SchedState.init]
  | step _ hs ih =>
    cases hs with
    | start p hp => exact List.nodup_cons.mpr ⟨hp, ih⟩
    | finish p => exact List.Nodup.erase p ih

theorem handleKeyPress2_success_results (selectedId : String)
    (backend : String → String → SearchResponse) (st : AppState2)
    (h : ¬ jsTrim st.searchQuery = "")
    (hs : (backend (jsTrim st.searchQuery) selectedId).success = true) :
    (handleKeyPress2 "Enter" selectedId backend st).1.searchResults =
      (if selectedId = "all" then mockSearchResults
        else mockSearchResults.filter (fun item => item.type == selectedId)) := by
  unfold handleKeyPress2
  rw [if_pos rfl, if_neg h]
  dsimp only
  rw [hs]
  by_cases hsel : selectedId = "all"
  · simp [hsel]
  · simp [hsel]

/- ===================================================================
   Claim theorems
   =================================================================== -/

/-- C1 counterexample: the claim that the code's search path returns
exactly the stored entries scoring at least the threshold, in descending
order, fails: in the spec's own scenario (scores 0.9 / 0.5 / 0.3 against
the query, threshold 0.4) the query service must return the two
highest-scoring entries, but the code's search path — the `search-query`
handler fetching `/files` and the renderer building exactly one result
item from the response — displays a single item. -/
theorem C1_counterexample :
    (search demoStore demoThreshold 10).map Prod.fst =
      ["/docs/fileA.txt", "/docs/fileB.txt"] ∧
    (handleKeyPress "Enter" "all" demoBackend demoState).1.searchResults.map
      (fun item => item.path) = ["/docs/fileA.txt"] ∧
    ¬ ((handleKeyPress "Enter" "all" demoBackend demoState).1.searchResults.map
        (fun item => item.path) =
      (search demoStore demoThreshold 10).map Prod.fst) := by
  refine ⟨?_, ?_, ?_⟩ <;> decide

/-- C1 (amended): the backend query service (modelled from the spec)
returns only stored entries scoring at least the threshold, ordered by
descending score — on the spec's scenario exactly the two top entries in
order — while the code's search path collapses every successful response
into at most one displayed result item. -/
theorem C1_threshold_filtering :
    (search demoStore demoThreshold 10).map Prod.fst =
      ["/docs/fileA.txt", "/docs/fileB.txt"] ∧
    (∀ (store : List (String × ℚ)) (threshold : ℚ) (limit : Nat),
      (∀ r ∈ search store threshold limit, r ∈ store ∧ threshold ≤ r.2) ∧
      List.Sorted scoreGE (search store threshold limit)) ∧
    (∀ (selectedId : String) (backend : String → String → SearchResponse)
      (st : AppState), ¬ jsTrim st.searchQuery = "" →
      ((handleKeyPress "Enter" selectedId backend st).1.searchResults).length ≤ 1) :=
  ⟨by decide,
    fun store threshold limit =>
      ⟨fun r hr => ⟨search_subset r hr, search_score_ge store threshold limit r hr⟩,
        search_sorted store threshold limit⟩,
    handleKeyPress_length_le_one⟩

/-- C1 witness: the amended statement evaluated at the spec's example store
and a concrete successful search. -/
theorem C1_witness :
    (search demoStore demoThreshold 10).map Prod.fst =
      ["/docs/fileA.txt", "/docs/fileB.txt"] ∧
    ((handleKeyPress "Enter" "all" demoBackend demoState).1.searchResults).length ≤ 1 :=
  ⟨C1_threshold_filtering.1,
    C1_threshold_filtering.2.2 "all" demoBackend demoState (by decide)⟩

/-- C2: if the embed step fails, the pipeline run leaves the per-file state
(the prior IndexEntry, if any, and the recorded content hash) exactly
unchanged; and over any sequence of runs on a fresh file an IndexEntry
exists iff some run completed the full pipeline — aborted runs are not full
runs, so the entry exists exactly when the last full pipeline run completed
successfully, and (at the granularity of the model) no partially written
entry is ever observable. -/
theorem C2_embed_atomicity :
    (∀ (env : PipelineEnv) (content e : String) (st : FileIndexState),
      (∀ s, env.embed s = Except.error e) →
      (runPipeline env content st).state = st) ∧
    (∀ evs : List (PipelineEnv × String),
      ((runSeq evs initState).entry.isSome = true) ↔
        RunOutcome.completed ∈ outcomesSeq evs initState) := by
  constructor
  · exact fun env content e st h => runPipeline_embed_fail_state env content e st h
  · intro evs
    have h := runSeq_entry_iff_aux evs initState rfl
    simpa [initState] using h

/-- C2 witness: a run under an always-failing embed leaves the fresh state
unchanged, and the entry-consistency equivalence holds for a concrete
two-run sequence. -/
theorem C2_witness :
    (runPipeline envFailEmbed "doc" initState).state = initState ∧
    (((runSeq demoEvents initState).entry.isSome = true) ↔
      RunOutcome.completed ∈ outcomesSeq demoEvents initState) :=
  ⟨C2_embed_atomicity.1 envFailEmbed "doc" "embedding backend unavailable"
      initState (fun _ => rfl),
    C2_embed_atomicity.2 demoEvents⟩

/-- C3: when no stored entry clears the threshold the query service
(modelled from the spec) returns an empty list, not an error; in the code,
every failing fetch in the `search-query` handler resolves (rather than
rejects) to `{success: false, error}`, and on such a failure the renderer
displays an empty result list. -/
theorem C3_no_match_empty_not_error :
    (∀ (store : List (String × ℚ)) (threshold : ℚ) (limit : Nat),
      (∀ r ∈ store, r.2 < threshold) → search store threshold limit = []) ∧
    (∀ query ft msg : String,
      searchQueryHandler query ft (fun _ => Except.error msg) =
        Except.ok ⟨false, none, some msg⟩) ∧
    (∀ (st : AppState) (selectedId : String) (r : SearchResponse),
      r.success = false → ¬ jsTrim st.searchQuery = "" →
      ((handleKeyPress "Enter" selectedId (fun _ _ => r) st).1.searchResults = [] ∧
        (handleKeyPress "Enter" selectedId (fun _ _ => r) st).1.showResults = true)) := by
  refine ⟨search_eq_nil_of_below, fun query ft msg => rfl, ?_⟩
  intro st selectedId r hs ht
  rw [handleKeyPress_failure selectedId (fun _ _ => r) st ht hs]
  exact ⟨rfl, rfl⟩

/-- C3 witness: a store whose only entry scores below the threshold, a
concrete failed fetch, and the renderer's empty display after a failure. -/
theorem C3_witness :
    search [("/docs/fileC.txt", mkRat 3 10)] demoThreshold 10 = [] ∧
    searchQueryHandler "notes" "all" (fun _ => Except.error "fetch failed") =
      Except.ok ⟨false, none, some "fetch failed"⟩ ∧
    (handleKeyPress "Enter" "all" (fun _ _ => ⟨false, none, some "fetch failed"⟩)
        demoState).1.searchResults = [] :=
  ⟨C3_no_match_empty_not_error.1 _ demoThreshold 10 (by decide),
    C3_no_match_empty_not_error.2.1 "notes" "all" "fetch failed",
    (C3_no_match_empty_not_error.2.2 demoState "all"
        ⟨false, none, some "fetch failed"⟩ rfl (by decide)).1⟩

/-- C4: the `search-query` handler's behaviour does not depend on its
`fileType` parameter — two invocations of the exposed `searchQuery` entry
point with the same query and any two file-type selections build the
identical request URL and return identical results. -/
theorem C4_fileType_independence :
    ∀ (query ft₁ ft₂ : String) (fetchJson : String → Except String String),
      searchQueryUrl query ft₁ = searchQueryUrl query ft₂ ∧
      electronAPI_searchQuery query ft₁ fetchJson =
        electronAPI_searchQuery query ft₂ fetchJson :=
  fun _ _ _ _ => ⟨rfl, rfl⟩

/-- C5 counterexample: the claim that the exposed search entry point
accepts a limit argument fails on the code — `electronAPI.searchQuery` is
declared with parameters `(query, fileType)` and no `limit`. -/
theorem C5_counterexample : "limit" ∉ electronAPI_searchQueryParams := by
  decide

/-- C5 (amended): the exposed `searchQuery` entry point accepts the query
text together with a file-type argument (not a limit); the backend query
service (modelled from the spec) is what accepts a limit, and every call
returns at most `limit` ranked results, all scoring at least the
threshold. -/
theorem C5_search_limit :
    electronAPI_searchQueryParams = ["query", "fileType"] ∧
    (∀ (store : List (String × ℚ)) (threshold : ℚ) (limit : Nat),
      (search store threshold limit).length ≤ limit ∧
      ∀ r ∈ search store threshold limit, threshold ≤ r.2) :=
  ⟨rfl, fun store threshold limit =>
    ⟨search_length_le store threshold limit, search_score_ge store threshold limit⟩⟩

/-- C5 witness: the amended statement evaluated on the spec's example
store. -/
theorem C5_witness :
    (search demoStore demoThreshold 10).length ≤ 10 ∧
    demoThreshold ≤ (("/docs/fileA.txt", mkRat 9 10) : String × ℚ).2 :=
  ⟨(C5_search_limit.2 demoStore demoThreshold 10).1,
    (C5_search_limit.2 demoStore demoThreshold 10).2
      ("/docs/fileA.txt", mkRat 9 10) (by decide)⟩

/-- C6: in every reachable scheduler state there is at most one running
pipeline instance per path — per-path pipeline runs are strictly
serialized, because a run for a path can start only by acquiring the
exclusive per-path token, which requires the prior run for that path to
have completed or aborted. -/
theorem C6_per_path_serialization :
    ∀ s : SchedState, SchedReachable s → ∀ p : String, s.running.count p ≤ 1 :=
  fun _ h p => List.nodup_iff_count_le_one.mp (schedReachable_nodup h) p

/-- C6 witness: a concrete reachable state with one run in flight. -/
theorem C6_witness :
    (SchedState.mk ["/watched/a.txt"]).running.count "/watched/a.txt" ≤ 1 :=
  C6_per_path_serialization ⟨["/watched/a.txt"]⟩
    (SchedReachable.step SchedReachable.init
      (SchedStep.start SchedState.init "/watched/a.txt"
        (by simp [SchedState.init])))
    "/watched/a.txt"

/-- C7: replaying the same `created` event for a file whose content is
unchanged: if the first run on the fresh file completed, the second run
short-circuits on the content-hash match, returning the state unchanged
with an empty Model Provider call trace (no summarize, embed or upsert
call), and exactly one IndexEntry is present for the file. -/
theorem C7_replay_idempotence :
    ∀ (env : PipelineEnv) (content : String),
      (runPipeline env content initState).outcome = RunOutcome.completed →
      (runPipeline env content (runPipeline env content initState).state =
        ⟨(runPipeline env content initState).state, [], RunOutcome.completed⟩ ∧
        (runPipeline env content initState).state.entry.isSome = true) := by
  intro env content hc
  rcases runPipeline_spec env content initState with h1 | h2
  · exact absurd (h1.2 hc) (by simp [initState])
  · exact ⟨runPipeline_skip env content _ h2.1, h2.2.1⟩

/-- C7 witness: a concrete successful first run; the second run is a
no-call skip leaving the single entry in place. -/
theorem C7_witness :
    runPipeline envOk "hello" (runPipeline envOk "hello" initState).state =
      ⟨(runPipeline envOk "hello" initState).state, [], RunOutcome.completed⟩ ∧
    (runPipeline envOk "hello" initState).state.entry.isSome = true :=
  C7_replay_idempotence envOk "hello" (by decide)

/-- C8: in SearchApp variant 2, every successful backend response displays
results drawn only from the hard-coded five-item mock list, filtered so
that a non-`all` selected type only shows items of that type, and the
displayed list is independent of both the query text and the data returned
by the backend. -/
theorem C8_mock_results_only :
    ∀ (selectedId : String) (r : SearchResponse) (st : AppState2),
      r.success = true → ¬ jsTrim st.searchQuery = "" →
      ((∀ item ∈ (handleKeyPress2 "Enter" selectedId (fun _ _ => r) st).1.searchResults,
          item ∈ mockSearchResults) ∧
        (¬ selectedId = "all" →
          ∀ item ∈ (handleKeyPress2 "Enter" selectedId (fun _ _ => r) st).1.searchResults,
            item.type = selectedId) ∧
        (∀ (r₂ : SearchResponse) (st₂ : AppState2),
          r₂.success = true → ¬ jsTrim st₂.searchQuery = "" →
          (handleKeyPress2 "Enter" selectedId (fun _ _ => r₂) st₂).1.searchResults =
            (handleKeyPress2 "Enter" selectedId (fun _ _ => r) st).1.searchResults)) := by
  intro selectedId r st hs ht
  have key := handleKeyPress2_success_results selectedId (fun _ _ => r) st ht hs
  refine ⟨?_, ?_, ?_⟩
  · intro item hitem
    rw [key] at hitem
    by_cases hsel : selectedId = "all"
    · rw [if_pos hsel] at hitem; exact hitem
    · rw [if_neg hsel] at hitem; exact List.mem_of_mem_filter hitem
  · intro hsel item hitem
    rw [key, if_neg hsel] at hitem
    simpa using (List.mem_filter.mp hitem).2
  · intro r₂ st₂ hs₂ ht₂
    rw [handleKeyPress2_success_results selectedId (fun _ _ => r₂) st₂ ht₂ hs₂, key]

/-- C8 witness: two successful searches with different queries and backend
data display the same mock-derived list. -/
theorem C8_witness :
    (handleKeyPress2 "Enter" "pdf" (fun _ _ => ⟨true, none, none⟩)
        ⟨"beta", [], true, true⟩).1.searchResults =
      (handleKeyPress2 "Enter" "pdf" (fun _ _ => ⟨true, some "x", none⟩)
        ⟨"alpha", [], false, false⟩).1.searchResults :=
  (C8_mock_results_only "pdf" ⟨true, some "x", none⟩ ⟨"alpha", [], false, false⟩
      rfl (by decide)).2.2 ⟨true, none, none⟩ ⟨"beta", [], true, true⟩ rfl (by decide)

/-- C9: pressing Enter while the query is empty or whitespace-only after
trimming returns without invoking the backend (the invoked flag is false)
and without modifying `searchResults`, `isLoading` or `showResults` (the
state is returned unchanged). -/
theorem C9_empty_query_frame :
    ∀ (selectedId : String) (backend : String → String → SearchResponse)
      (st : AppState), jsTrim st.searchQuery = "" →
      handleKeyPress "Enter" selectedId backend st = (st, false) := by
  intro selectedId backend st h
  unfold handleKeyPress
  rw [if_pos rfl, if_pos h]

/-- C9 witness: a whitespace-only query leaves everything untouched. -/
theorem C9_witness :
    handleKeyPress "Enter" "all" demoBackend ⟨"   ", [], false, false⟩ =
      (⟨"   ", [], false, false⟩, false) :=
  C9_empty_query_frame "all" demoBackend ⟨"   ", [], false, false⟩ (by decide)

end PowerSearch
